import Mathlib

/-!
# Zomato backend: importer (`loadData.js`) and API handlers (`server.js`)

A shallow embedding of the bulk importer `importData` and of the three
query handlers `GET /api/restaurantss/:id`, `GET /api/restaurants` and
`GET /api/nearby`, followed by the properties proved about them.

Modelling conventions.

* A JavaScript value is a `JSVal`: what `JSON.parse` can return, plus
  `undefined` (the value of a property that is not there).
* A JavaScript number is a `JSNum`: `NaN`, `+Infinity`, `-Infinity` or an
  exact rational.  Rounding to binary64 and overflow to `Infinity` are not
  modelled, and `-0` is identified with `0` (both are falsy and compare
  equal).  The integers read by `parseInt` from a query string are exact.
* A query-string parameter is `none` when missing and `some s` when present
  with the text `s`; repeated and bracketed parameters are not modelled.
* A thrown exception is the `Except.error` result of the enclosing function.
* The document store and the process (exit code, bulk insert) are explicit
  parameters and explicit results.
-/

namespace Zomato

/-! ## JavaScript values -/

/-- A JavaScript number with exact finite values. -/
inductive JSNum where
  | nan
  | inf (negative : Bool)
  | fin (q : Rat)
  deriving DecidableEq

/-- A JavaScript value as produced by `JSON.parse`, or `undefined`.
An object keeps its members in source order. -/
inductive JSVal where
  | undefined
  | null
  | bool (b : Bool)
  | num (n : JSNum)
  | str (s : String)
  | arr (xs : List JSVal)
  | obj (kvs : List (String × JSVal))

/-- An exception object: a `TypeError` raised by reading property `prop` of
`null` or `undefined`, or an `Error` carrying a message. -/
inductive JSError where
  | typeError (prop : String)
  | error (message : String)
  deriving DecidableEq

/-- The number zero. -/
def JSNum.zero : JSNum := .fin 0

/-- The test `Number.isNaN`. -/
def JSNum.isNaN : JSNum → Bool
  | .nan => true
  | _ => false

/-- Truthiness of a number: `NaN` and `0` are falsy. -/
def JSNum.truthy : JSNum → Bool
  | .nan => false
  | .inf _ => true
  | .fin q => decide (q ≠ 0)

/-- The product `a * b` of two numbers. -/
def JSNum.mul : JSNum → JSNum → JSNum
  | .nan, _ => .nan
  | _, .nan => .nan
  | .inf s, .inf t => .inf (s != t)
  | .inf s, .fin q => if q = 0 then .nan else .inf (s != decide (q < 0))
  | .fin q, .inf s => if q = 0 then .nan else .inf (s != decide (q < 0))
  | .fin p, .fin q => .fin (p * q)

/-- Truthiness (`ToBoolean`): `undefined`, `null`, `false`, `0`, `NaN` and
the empty string are falsy; everything else, arrays and objects included, is
truthy. -/
def JSVal.truthy : JSVal → Bool
  | .undefined => false
  | .null => false
  | .bool b => b
  | .num n => n.truthy
  | .str s => decide (s ≠ "")
  | .arr _ => true
  | .obj _ => true

/-- The expression `a || b`. -/
def JSVal.or (a b : JSVal) : JSVal := if a.truthy then a else b

/-- The expression `a || b` on numbers. -/
def JSNum.or (a b : JSNum) : JSNum := if a.truthy then a else b

/-- The member of an object for key `k`; a repeated key keeps its last value,
as `JSON.parse` does. -/
def lookupKey (k : String) : List (String × JSVal) → Option JSVal
  | [] => none
  | (k', v) :: rest =>
    match lookupKey k rest with
    | some w => some w
    | none => if k' = k then some v else none

/-- The own member `v[k]` of an object, `none` when `v` is not an object or
has no such member. -/
def JSVal.field? : JSVal → String → Option JSVal
  | .obj kvs, k => lookupKey k kvs
  | _, _ => none

/-- Property read `v.k` for the property names the importer reads
(`restaurants`, `restaurant`, `location`, `id`, `name`, ...), none of which
is a built-in property of strings, numbers, booleans, arrays or plain
objects: reading from `null` or `undefined` throws a `TypeError`, an object
gives its member or `undefined`, any other value gives `undefined`. -/
def getProp (v : JSVal) (k : String) : Except JSError JSVal :=
  match v with
  | .undefined => .error (.typeError k)
  | .null => .error (.typeError k)
  | .obj kvs => .ok ((lookupKey k kvs).getD .undefined)
  | _ => .ok .undefined

/-- Optional chaining `v?.k`: `undefined` when `v` is `null` or `undefined`,
the property read otherwise. -/
def optChain (v : JSVal) (k : String) : Except JSError JSVal :=
  match v with
  | .undefined => .ok .undefined
  | .null => .ok .undefined
  | _ => getProp v k

/-! ## `parseFloat` and `parseInt` -/

/-- White space and line terminators stripped by `parseFloat`/`parseInt`. -/
def isWhiteSpace (c : Char) : Bool :=
  let n := c.toNat
  n = 9 || n = 10 || n = 11 || n = 12 || n = 13 || n = 32 || n = 160 ||
  n = 0x1680 || (0x2000 ≤ n && n ≤ 0x200A) || n = 0x2028 || n = 0x2029 ||
  n = 0x202F || n = 0x205F || n = 0x3000 || n = 0xFEFF

/-- Drop leading white space. -/
def trimStart (cs : List Char) : List Char := cs.dropWhile isWhiteSpace

/-- The value of a string of decimal digits. -/
def digitsToNat (ds : List Char) : Nat :=
  ds.foldl (fun acc c => 10 * acc + (c.toNat - 48)) 0

/-- The number `m * 10 ^ e`. -/
def scale10 (m : Nat) (e : Int) : Rat :=
  if 0 ≤ e then mkRat (m * 10 ^ e.toNat) 1 else mkRat m (10 ^ (-e).toNat)

/-- The `ExponentPart` at the start of `cs`, if there is a well-formed one:
`e` or `E`, an optional sign and at least one digit. -/
def parseExponent (cs : List Char) : Int :=
  match cs with
  | c :: rest =>
    if c = 'e' ∨ c = 'E' then
      match rest with
      | '+' :: ds =>
        if (ds.takeWhile Char.isDigit).isEmpty then 0
        else (digitsToNat (ds.takeWhile Char.isDigit) : Int)
      | '-' :: ds =>
        if (ds.takeWhile Char.isDigit).isEmpty then 0
        else - (digitsToNat (ds.takeWhile Char.isDigit) : Int)
      | ds =>
        if (ds.takeWhile Char.isDigit).isEmpty then 0
        else (digitsToNat (ds.takeWhile Char.isDigit) : Int)
    else 0
  | [] => 0

/-- The longest prefix of `cs` that is a `StrUnsignedDecimalLiteral`, as a
number; `NaN` when no prefix is one. -/
def parseUnsignedDecimal (cs : List Char) : JSNum :=
  if "Infinity".data.isPrefixOf cs then .inf false
  else
    let ip := cs.takeWhile Char.isDigit
    let r := cs.dropWhile Char.isDigit
    match r with
    | '.' :: r' =>
      let fp := r'.takeWhile Char.isDigit
      if ip.isEmpty && fp.isEmpty then .nan
      else
        .fin (scale10 (digitsToNat (ip ++ fp))
          (parseExponent (r'.dropWhile Char.isDigit) - fp.length))
    | _ =>
      if ip.isEmpty then .nan
      else .fin (scale10 (digitsToNat ip) (parseExponent r))

/-- Negation of a number. -/
def JSNum.neg : JSNum → JSNum
  | .nan => .nan
  | .inf s => .inf (!s)
  | .fin q => .fin (-q)

/-- The function `parseFloat` on a string: leading white space is dropped and
the longest prefix that is a `StrDecimalLiteral` is read. -/
def parseFloatStr (s : String) : JSNum :=
  match trimStart s.data with
  | '-' :: cs => (parseUnsignedDecimal cs).neg
  | '+' :: cs => parseUnsignedDecimal cs
  | cs => parseUnsignedDecimal cs

/-- The value of a hexadecimal digit. -/
def hexDigit? (c : Char) : Option Nat :=
  if c.isDigit then some (c.toNat - 48)
  else if 'a'.toNat ≤ c.toNat ∧ c.toNat ≤ 'f'.toNat then some (c.toNat - 87)
  else if 'A'.toNat ≤ c.toNat ∧ c.toNat ≤ 'F'.toNat then some (c.toNat - 55)
  else none

/-- The longest prefix of hexadecimal digits, read as a number. -/
def readHexDigits : List Char → Option Nat → Option Nat
  | [], acc => acc
  | c :: cs, acc =>
    match hexDigit? c with
    | some d => readHexDigits cs (some (16 * acc.getD 0 + d))
    | none => acc

/-- The digits read by `parseInt` with no radix argument: base 16 after a
`0x` or `0X` prefix, base 10 otherwise; `none` when there is no digit. -/
def parseIntDigits (cs : List Char) : Option Nat :=
  match cs with
  | '0' :: 'x' :: r => readHexDigits r none
  | '0' :: 'X' :: r => readHexDigits r none
  | _ =>
    if (cs.takeWhile Char.isDigit).isEmpty then none
    else some (digitsToNat (cs.takeWhile Char.isDigit))

/-- The function `parseInt` on a string; `none` stands for `NaN`. -/
def parseIntStr (s : String) : Option Int :=
  match trimStart s.data with
  | '-' :: cs => (parseIntDigits cs).map (fun n => - (n : Int))
  | '+' :: cs => (parseIntDigits cs).map (fun n => (n : Int))
  | cs => (parseIntDigits cs).map (fun n => (n : Int))

/-- The first significant decimal digit of a positive rational. -/
def leadingDigit (q : Rat) : Int :=
  if 1 ≤ q then (q.floor.toNat / 10 ^ Nat.log 10 q.floor.toNat : Nat)
  else (q * 10 ^ Nat.clog 10 (q⁻¹).ceil.toNat).floor

/-- The function `parseInt` on a finite number, which is first written out by
`Number::toString`: plain decimal notation when `1e-6 ≤ |q| < 1e21`, so the
integer part is read; exponent notation otherwise, so only the first
significant digit is read. -/
def parseIntRat (q : Rat) : Rat :=
  if q = 0 then 0
  else if mkRat 1 1000000 ≤ |q| ∧ |q| < 10 ^ 21 then
    (if 0 ≤ q then (q.floor : Rat) else (q.ceil : Rat))
  else if 0 ≤ q then (leadingDigit q : Rat) else - (leadingDigit (-q) : Rat)

/-- The function `parseFloat`.  The argument is first converted to a string:
`undefined`, `null`, booleans and plain objects give strings with no numeric
prefix; a number is read back unchanged; an array is joined with commas, so
only its first element can be read. -/
def parseFloat : JSVal → JSNum
  | .num n => n
  | .str s => parseFloatStr s
  | .arr (x :: _) => parseFloat x
  | _ => .nan

/-- The function `parseInt` with no radix; conversion to a string as for
`parseFloat`. -/
def parseInt : JSVal → JSNum
  | .num (.fin q) => .fin (parseIntRat q)
  | .str s =>
    match parseIntStr s with
    | some n => .fin n
    | none => .nan
  | .arr (x :: _) => parseInt x
  | _ => .nan

/-! ## The importer (`loadData.js`) -/

/-- The `location` member of a document built by the importer. -/
structure Location where
  type : String
  coordinates : List JSNum
  address : JSVal
  city : JSVal

/-- The `user_rating` member of a document built by the importer. -/
structure UserRating where
  aggregate_rating : JSNum
  rating_text : JSVal
  votes : JSNum

/-- A document built by the importer (the object literal of `importData`). -/
structure Restaurant where
  id : JSVal
  name : JSVal
  cuisines : JSVal
  location : Location
  average_cost_for_two : JSVal
  price_range : JSVal
  user_rating : UserRating
  featured_image : JSVal
  menu_url : JSVal

/-- The callback of `entry.restaurants.map`: `none` is the `null` returned
for a skipped wrapper, `some d` the document built for a kept one. -/
def extractRestaurant (r : JSVal) : Except JSError (Option Restaurant) := do
  let rest ← getProp r "restaurant"
  if !rest.truthy then return none
  let loc ← getProp rest "location"
  if !loc.truthy then return none
  let id ← getProp rest "id"
  let name ← getProp rest "name"
  let cuisines ← getProp rest "cuisines"
  let longitude ← getProp loc "longitude"
  let latitude ← getProp loc "latitude"
  let address ← getProp loc "address"
  let city ← getProp loc "city"
  let average_cost_for_two ← getProp rest "average_cost_for_two"
  let price_range ← getProp rest "price_range"
  let user_rating ← getProp rest "user_rating"
  let aggregate_rating ← optChain user_rating "aggregate_rating"
  let rating_text ← optChain user_rating "rating_text"
  let votes ← optChain user_rating "votes"
  let featured_image ← getProp rest "featured_image"
  let menu_url ← getProp rest "menu_url"
  return some
    { id := id.or .null
      name := name.or (.str "Unknown")
      cuisines := cuisines.or (.str "Not specified")
      location :=
        { type := "Point"
          coordinates :=
            [(parseFloat longitude).or .zero, (parseFloat latitude).or .zero]
          address := address.or (.str "No address provided")
          city := city.or (.str "Unknown") }
      average_cost_for_two := average_cost_for_two.or (.num .zero)
      price_range := price_range.or (.num (.fin 1))
      user_rating :=
        { aggregate_rating := (parseFloat aggregate_rating).or .zero
          rating_text := rating_text.or (.str "No Rating")
          votes := (parseInt votes).or .zero }
      featured_image := featured_image.or (.str "")
      menu_url := menu_url.or (.str "") }

/-- The call `entry.restaurants.map(...)`: the callback runs on every wrapper
in order, and an exception in one call aborts the whole map. -/
def mapWrappers : List JSVal → Except JSError (List (Option Restaurant))
  | [] => .ok []
  | r :: rs => do
    let x ← extractRestaurant r
    let xs ← mapWrappers rs
    return x :: xs

/-- The body of the `data.forEach` callback: when `entry.restaurants` is an
array its wrappers are mapped, the `null` results are filtered out and the
rest is appended to `restaurants`. -/
def processEntry (restaurants : List Restaurant) (entry : JSVal) :
    Except JSError (List Restaurant) := do
  let rs ← getProp entry "restaurants"
  match rs with
  | .arr wrappers => do
    let mapped ← mapWrappers wrappers
    return restaurants ++ mapped.filterMap id
  | _ => return restaurants

/-- The loop `data.forEach(...)` over the entries, threading `restaurants`. -/
def forEachEntry : List JSVal → List Restaurant → Except JSError (List Restaurant)
  | [], restaurants => .ok restaurants
  | entry :: entries, restaurants => do
    let restaurants' ← processEntry restaurants entry
    forEachEntry entries restaurants'

/-- The message of the error thrown for a root that is not a non-empty
array. -/
def invalidStructureMessage : String :=
  "❌ Invalid JSON structure: Expected an array at the root."

/-- The message of the error thrown when nothing is left to insert. -/
def noValidRestaurantsMessage : String :=
  "❌ No valid restaurants found in the JSON file."

/-- The list `restaurants` built by `importData` from the parsed file, up to
the point where it is either rejected as empty or inserted: the root check
followed by the `forEach` loop. -/
def buildRestaurants (data : JSVal) : Except JSError (List Restaurant) :=
  match data with
  | .arr entries =>
    if entries.length = 0 then .error (.error invalidStructureMessage)
    else forEachEntry entries []
  | _ => .error (.error invalidStructureMessage)

/-- What one run of the importer does: the exit code of the process, the
bulk inserts it attempted (each with the documents passed) and the error
reported by the `catch` block, if any. -/
structure ImportRun where
  exitCode : Nat
  inserts : List (List Restaurant)
  error : Option JSError

/-- The function `importData`.  `parsed` is the outcome of
`JSON.parse(fs.readFileSync(...))` and `insertMany` the outcome of the store
for a bulk insert; every exception ends in the `catch` block, which exits
with code 1. -/
def importData (insertMany : List Restaurant → Except JSError Unit)
    (parsed : Except JSError JSVal) : ImportRun :=
  match parsed with
  | .error e => { exitCode := 1, inserts := [], error := some e }
  | .ok data =>
    match buildRestaurants data with
    | .error e => { exitCode := 1, inserts := [], error := some e }
    | .ok restaurants =>
      if restaurants.length = 0 then
        { exitCode := 1, inserts := [],
          error := some (.error noValidRestaurantsMessage) }
      else
        match insertMany restaurants with
        | .error e => { exitCode := 1, inserts := [restaurants], error := some e }
        | .ok _ => { exitCode := 0, inserts := [restaurants], error := none }

/-! ## The API server (`server.js`) -/

/-- An error raised by the document store. -/
structure StoreError where
  message : String
  deriving DecidableEq

/-- The JSON bodies the handlers send, over documents of type `D`. -/
inductive Body (D : Type) where
  | document (restaurant : D)
  | message (message : String)
  | errorMessage (message : String) (error : String)
  | errorObject (message : String) (error : StoreError)
  | page (totalRestaurants : Nat) (currentPage : Int) (totalPages : Int)
      (restaurants : List D)
  | matches (total : Nat) (restaurants : List D)

/-- An HTTP response: status code and JSON body (`res.json` alone sends
status 200). -/
structure Response (D : Type) where
  status : Nat
  body : Body D

/-- Truthiness of a query-string parameter, which is `undefined` when missing
(`none`) and a string otherwise. -/
def paramTruthy : Option String → Bool
  | none => false
  | some s => decide (s ≠ "")

/-- The call `parseInt(x)` on a query-string parameter; `none` stands for
`NaN`, which is also what `parseInt(undefined)` gives. -/
def parseIntParam : Option String → Option Int
  | none => none
  | some s => parseIntStr s

/-- The call `parseFloat(x)` on a query-string parameter. -/
def parseFloatParam : Option String → JSNum
  | none => .nan
  | some s => parseFloatStr s

/-- The expression `n || d` for an integer-or-`NaN` `n`: `NaN` and `0` are
falsy. -/
def intOr (n : Option Int) (d : Int) : Int :=
  match n with
  | some k => if k = 0 then d else k
  | none => d

/-- The handler of `GET /api/restaurantss/:id`; `findOne id` is the outcome of
`Restaurant.findOne` with the filter `id: restaurantId`. -/
def getRestaurantById {D : Type} (findOne : String → Except StoreError (Option D))
    (id : String) : Response D :=
  match findOne id with
  | .error error =>
    { status := 500, body := .errorMessage "Server Error" error.message }
  | .ok none => { status := 404, body := .message "Restaurant Not Found" }
  | .ok (some restaurant) => { status := 200, body := .document restaurant }

/-- The line `page = parseInt(page) || 1`. -/
def effectivePage (page : Option String) : Int := intOr (parseIntParam page) 1

/-- The line `limit = parseInt(limit) || 10`. -/
def effectiveLimit (limit : Option String) : Int := intOr (parseIntParam limit) 10

/-- The handler of `GET /api/restaurants`; `find skip limit` is the outcome of
`Restaurant.find(query).skip(skip).limit(limit)` and `countDocuments` that of
`Restaurant.countDocuments(query)`, both for the empty filter. -/
def listRestaurants {D : Type} (find : Int → Int → Except StoreError (List D))
    (countDocuments : Except StoreError Nat) (page limit : Option String) :
    Response D :=
  let page := effectivePage page
  let limit := effectiveLimit limit
  match find ((page - 1) * limit) limit with
  | .error error => { status := 500, body := .errorObject "Server Error" error }
  | .ok restaurants =>
    match countDocuments with
    | .error error => { status := 500, body := .errorObject "Server Error" error }
    | .ok total =>
      { status := 200
        body := .page total page (Int.ceil ((total : Rat) / (limit : Rat))) restaurants }

/-- The `$near` filter sent to the store: a GeoJSON point and `$maxDistance`
in metres. -/
structure NearQuery where
  coordinates : List JSNum
  maxDistance : JSNum
  deriving DecidableEq

/-- The message of the 400 response of `GET /api/nearby`. -/
def nearbyRequiredMessage : String :=
  "Latitude, longitude, and distance are required!"

/-- The handler of `GET /api/nearby`, returning the response together with the
list of queries it issued to the store; `find q` is the outcome of
`Restaurant.find` with the `$near` filter `q`. -/
def nearby {D : Type} (find : NearQuery → Except StoreError (List D))
    (latitude longitude distance : Option String) : Response D × List NearQuery :=
  if !paramTruthy latitude || !paramTruthy longitude || !paramTruthy distance then
    ({ status := 400, body := .message nearbyRequiredMessage }, [])
  else
    let latitude := parseFloatParam latitude
    let longitude := parseFloatParam longitude
    let distance := (parseFloatParam distance).mul (.fin 1000)
    let q : NearQuery := { coordinates := [longitude, latitude], maxDistance := distance }
    match find q with
    | .error error =>
      ({ status := 500, body := .errorObject "Server Error" error }, [q])
    | .ok restaurants =>
      ({ status := 200, body := .matches restaurants.length restaurants }, [q])

/-! ## The document store -/

/-- The test `v === s` for a string `s`. -/
def JSVal.isStr (v : JSVal) (s : String) : Bool :=
  match v with
  | .str t => decide (t = s)
  | _ => false

/-- Modelled from the spec: the store lookup behind `findOne` (the store is an
external service).  It yields the first document whose stored `id` equals the
identifier, compared as a string, or nothing when there is none. -/
def Collection.findOne (docs : List Restaurant) (id : String) :
    Except StoreError (Option Restaurant) :=
  .ok (docs.find? (fun d => d.id.isStr id))

/-- Modelled from the spec: the page query of the store (an external service),
the slice obtained by skipping `skip` documents and taking `limit`.  The spec
gives this for a non-negative `skip` and a positive `limit`; `other` is the
answer of the store outside that range. -/
def Collection.find (other : Int → Int → Except StoreError (List Restaurant))
    (docs : List Restaurant) (skip limit : Int) :
    Except StoreError (List Restaurant) :=
  if 0 ≤ skip ∧ 0 < limit then .ok ((docs.drop skip.toNat).take limit.toNat)
  else other skip limit

/-- Modelled from the spec: the document count of the store (an external
service). -/
def Collection.countDocuments (docs : List Restaurant) : Except StoreError Nat :=
  .ok docs.length

/-! ## Vocabulary of the specification -/

/-- The value is a JSON object. -/
def JSVal.isObject : JSVal → Bool
  | .obj _ => true
  | _ => false

/-- The value is `null` or `undefined`. -/
def JSVal.isNullish : JSVal → Bool
  | .null => true
  | .undefined => true
  | _ => false

/-- The wrappers of one entry: the elements of its `restaurants` member when
that is an array. -/
def entryWrappers (entry : JSVal) : List JSVal :=
  match entry.field? "restaurants" with
  | some (.arr wrappers) => wrappers
  | _ => []

/-- All wrappers of an import file, in input order. -/
def wrappersOf (entries : List JSVal) : List JSVal :=
  entries.flatMap entryWrappers

/-- The wrapper has a `restaurant` member with a truthy `location` member. -/
def isKept (w : JSVal) : Bool :=
  match w.field? "restaurant" with
  | some rest =>
    match rest.field? "location" with
    | some loc => loc.truthy
    | none => false
  | none => false

/-- A coordinate as the specification words it: the parse of the input value,
or `0` when the value is missing or does not parse as a number. -/
def coordinateOf (input : Option JSVal) : JSNum :=
  match input with
  | none => .zero
  | some v => if (parseFloat v).isNaN then .zero else parseFloat v

/-- A defaulted field as the specification words it: the input value when it
is there and truthy, the default when it is absent or falsy. -/
def valueOrDefault (input : Option JSVal) (dflt : JSVal) : JSVal :=
  match input with
  | none => dflt
  | some v => if v.truthy then v else dflt

/-! ## Example inputs -/

/-- The wrapper of the specification's example:
`{"restaurant":{"id":"1","name":"Cafe X","location":{"longitude":"12.5","latitude":"55.7"}}}`. -/
def cafeWrapper : JSVal :=
  .obj [("restaurant",
    .obj [("id", .str "1"), ("name", .str "Cafe X"),
      ("location", .obj [("longitude", .str "12.5"), ("latitude", .str "55.7")])])]

/-- The entries of the specification's example file. -/
def cafeEntries : List JSVal := [.obj [("restaurants", .arr [cafeWrapper])]]

/-- The import file of the specification's example:
`[{"restaurants":[{"restaurant":{"id":"1","name":"Cafe X","location":{"longitude":"12.5","latitude":"55.7"}}}]}]`. -/
def cafeFile : JSVal := .arr cafeEntries

/-- The document expected for `cafeFile`. -/
def cafeDocument : Restaurant :=
  { id := .str "1"
    name := .str "Cafe X"
    cuisines := .str "Not specified"
    location :=
      { type := "Point"
        coordinates := [.fin (mkRat 25 2), .fin (mkRat 557 10)]
        address := .str "No address provided"
        city := .str "Unknown" }
    average_cost_for_two := .num .zero
    price_range := .num (.fin 1)
    user_rating :=
      { aggregate_rating := .zero, rating_text := .str "No Rating", votes := .zero }
    featured_image := .str ""
    menu_url := .str "" }

/-- The entries of an import file with a `null` wrapper next to a valid one. -/
def nullWrapperEntries : List JSVal := [.obj [("restaurants", .arr [.null, cafeWrapper])]]

/-- An import file with a `null` wrapper next to a valid one:
`[{"restaurants":[null,{"restaurant":{"id":"1","name":"Cafe X","location":{"longitude":"12.5","latitude":"55.7"}}}]}]`. -/
def nullWrapperFile : JSVal := .arr nullWrapperEntries

/-- A wrapper whose fields are present but falsy:
`{"restaurant":{"id":0,"name":"","price_range":0,"location":{"longitude":"abc"}}}`. -/
def falsyFieldsWrapper : JSVal :=
  .obj [("restaurant",
    .obj [("id", .num (.fin 0)), ("name", .str ""), ("price_range", .num (.fin 0)),
      ("location", .obj [("longitude", .str "abc")])])]

/-! ## The `map` callback without exceptions -/

/-- The document the importer builds from a restaurant object and its
location, with every property read written as a member lookup. -/
def documentOf (rest loc : JSVal) : Restaurant :=
  { id := valueOrDefault (rest.field? "id") .null
    name := valueOrDefault (rest.field? "name") (.str "Unknown")
    cuisines := valueOrDefault (rest.field? "cuisines") (.str "Not specified")
    location :=
      { type := "Point"
        coordinates :=
          [coordinateOf (loc.field? "longitude"), coordinateOf (loc.field? "latitude")]
        address := valueOrDefault (loc.field? "address") (.str "No address provided")
        city := valueOrDefault (loc.field? "city") (.str "Unknown") }
    average_cost_for_two :=
      valueOrDefault (rest.field? "average_cost_for_two") (.num .zero)
    price_range := valueOrDefault (rest.field? "price_range") (.num (.fin 1))
    user_rating :=
      { aggregate_rating :=
          coordinateOf ((rest.field? "user_rating").bind
            (fun u => u.field? "aggregate_rating"))
        rating_text :=
          valueOrDefault ((rest.field? "user_rating").bind
            (fun u => u.field? "rating_text")) (.str "No Rating")
        votes :=
          (parseInt (((rest.field? "user_rating").bind
            (fun u => u.field? "votes")).getD .undefined)).or .zero }
    featured_image := valueOrDefault (rest.field? "featured_image") (.str "")
    menu_url := valueOrDefault (rest.field? "menu_url") (.str "") }

/-- The result of the `map` callback on a wrapper that is not `null`: the
document of a kept wrapper, nothing for a skipped one. -/
def keptDocument? (w : JSVal) : Option Restaurant :=
  match w.field? "restaurant" with
  | some rest =>
    match rest.field? "location" with
    | some loc => if loc.truthy then some (documentOf rest loc) else none
    | none => none
  | none => none

/-! ## Property reads -/

theorem getProp_of_not_nullish (v : JSVal) (k : String) (h : v.isNullish = false) :
    getProp v k = .ok ((v.field? k).getD .undefined) := by
  cases v <;> simp_all [getProp, JSVal.field?, JSVal.isNullish]

theorem getProp_of_nullish (v : JSVal) (k : String) (h : v.isNullish = true) :
    getProp v k = .error (.typeError k) := by
  cases v <;> simp_all [getProp, JSVal.isNullish]

theorem optChain_eq (v : JSVal) (k : String) :
    optChain v k = .ok ((v.field? k).getD .undefined) := by
  cases v <;> simp [optChain, getProp, JSVal.field?]

theorem not_nullish_of_truthy (v : JSVal) (h : v.truthy = true) : v.isNullish = false := by
  cases v <;> simp_all [JSVal.truthy, JSVal.isNullish]

theorem not_nullish_of_field (v : JSVal) (k : String) (x : JSVal)
    (h : v.field? k = some x) : v.isNullish = false := by
  cases v <;> simp_all [JSVal.field?, JSVal.isNullish]

theorem truthy_of_field (v : JSVal) (k : String) (x : JSVal)
    (h : v.field? k = some x) : v.truthy = true := by
  cases v <;> simp_all [JSVal.field?, JSVal.truthy]

theorem field_getD_undefined (o : Option JSVal) (k : String) :
    (o.getD .undefined).field? k = o.bind (fun u => u.field? k) := by
  cases o <;> simp [JSVal.field?]

theorem or_getD_undefined (o : Option JSVal) (dflt : JSVal) :
    (o.getD .undefined).or dflt = valueOrDefault o dflt := by
  cases o <;> simp [JSVal.or, valueOrDefault, JSVal.truthy]

theorem parseFloat_or_zero (v : JSVal) :
    (parseFloat v).or .zero = if (parseFloat v).isNaN then .zero else parseFloat v := by
  cases h : parseFloat v with
  | nan => simp [JSNum.or, JSNum.truthy, JSNum.isNaN]
  | inf s => simp [JSNum.or, JSNum.truthy, JSNum.isNaN]
  | fin q =>
    by_cases hq : q = 0
    · simp [JSNum.or, JSNum.truthy, JSNum.isNaN, hq, JSNum.zero]
    · simp [JSNum.or, JSNum.truthy, JSNum.isNaN, hq]

theorem coordinate_eq (o : Option JSVal) :
    (parseFloat (o.getD .undefined)).or .zero = coordinateOf o := by
  cases o with
  | none => simp [coordinateOf, parseFloat, JSNum.or, JSNum.truthy]
  | some v => simp [coordinateOf, parseFloat_or_zero]

/-! ## The `map` callback -/

theorem extractRestaurant_kept (w rest loc : JSVal)
    (hr : w.field? "restaurant" = some rest) (hl : rest.field? "location" = some loc)
    (ht : loc.truthy = true) :
    extractRestaurant w = .ok (some (documentOf rest loc)) := by
  have hw := not_nullish_of_field w _ _ hr
  have hrest := not_nullish_of_field rest _ _ hl
  have hrt := truthy_of_field rest _ _ hl
  have hloc := not_nullish_of_truthy loc ht
  simp only [extractRestaurant, getProp_of_not_nullish w _ hw, getProp_of_not_nullish rest _ hrest,
    getProp_of_not_nullish loc _ hloc, optChain_eq, hr, hl, bind, Except.bind, pure, Except.pure,
    Option.getD_some, hrt, ht, Bool.not_true, or_getD_undefined, coordinate_eq, documentOf,
    field_getD_undefined]
  simp

theorem extractRestaurant_eq (w : JSVal) (hw : w.isNullish = false) :
    extractRestaurant w = .ok (keptDocument? w) := by
  cases hr : w.field? "restaurant" with
  | none =>
    simp [extractRestaurant, getProp_of_not_nullish w _ hw, hr, keptDocument?, bind, Except.bind,
      pure, Except.pure, JSVal.truthy]
  | some rest =>
    cases hl : rest.field? "location" with
    | none =>
      cases hrt : rest.truthy with
      | false =>
        simp [extractRestaurant, getProp_of_not_nullish w _ hw, hr, hl, keptDocument?, bind,
          Except.bind, pure, Except.pure, hrt]
      | true =>
        have hrest := not_nullish_of_truthy rest hrt
        simp [extractRestaurant, getProp_of_not_nullish w _ hw, hr, hl, keptDocument?, bind,
          Except.bind, pure, Except.pure, hrt, getProp_of_not_nullish rest _ hrest, JSVal.truthy]
    | some loc =>
      cases ht : loc.truthy with
      | true => simp [extractRestaurant_kept w rest loc hr hl ht, keptDocument?, hr, hl, ht]
      | false =>
        have hrest := not_nullish_of_field rest _ _ hl
        have hrt := truthy_of_field rest _ _ hl
        simp [extractRestaurant, getProp_of_not_nullish w _ hw, hr, hl, keptDocument?, bind,
          Except.bind, pure, Except.pure, hrt, getProp_of_not_nullish rest _ hrest, ht]

theorem extractRestaurant_nullish (w : JSVal) (hw : w.isNullish = true) :
    extractRestaurant w = .error (.typeError "restaurant") := by
  simp [extractRestaurant, getProp_of_nullish w _ hw, bind, Except.bind]

theorem keptDocument?_isSome (w : JSVal) : (keptDocument? w).isSome = isKept w := by
  unfold keptDocument? isKept
  cases hr : w.field? "restaurant" with
  | none => rfl
  | some rest =>
    cases hl : rest.field? "location" with
    | none => simp [hl]
    | some loc => cases h : loc.truthy <;> simp [hl, h]

theorem extractRestaurant_some_inv (w : JSVal) (d : Restaurant)
    (h : extractRestaurant w = .ok (some d)) :
    ∃ rest loc, w.field? "restaurant" = some rest ∧ rest.field? "location" = some loc ∧
      loc.truthy = true ∧ d = documentOf rest loc := by
  cases hw : w.isNullish with
  | true => rw [extractRestaurant_nullish w hw] at h; cases h
  | false =>
    rw [extractRestaurant_eq w hw] at h
    unfold keptDocument? at h
    cases hr : w.field? "restaurant" with
    | none => simp [hr] at h
    | some rest =>
      cases hl : rest.field? "location" with
      | none => simp [hr, hl] at h
      | some loc =>
        cases ht : loc.truthy with
        | false => simp [hr, hl, ht] at h
        | true =>
          simp [hr, hl, ht] at h
          exact ⟨rest, loc, rfl, hl, ht, h.symm⟩

/-! ## The `forEach` loop -/

theorem mapWrappers_eq (ws : List JSVal) (hw : ∀ w ∈ ws, w.isNullish = false) :
    mapWrappers ws = .ok (ws.map keptDocument?) := by
  induction ws with
  | nil => rfl
  | cons w ws ih =>
    have h1 := extractRestaurant_eq w (hw w (List.mem_cons_self _ _))
    have h2 := ih (fun x hx => hw x (List.mem_cons_of_mem _ hx))
    simp [mapWrappers, h1, h2, bind, Except.bind, pure, Except.pure]

theorem processEntry_eq (acc : List Restaurant) (e : JSVal) (he : e.isNullish = false)
    (hw : ∀ w ∈ entryWrappers e, w.isNullish = false) :
    processEntry acc e = .ok (acc ++ (entryWrappers e).filterMap keptDocument?) := by
  unfold processEntry
  rw [getProp_of_not_nullish e _ he]
  unfold entryWrappers at hw ⊢
  cases h : e.field? "restaurants" with
  | none => simp [bind, Except.bind, pure, Except.pure]
  | some v =>
    cases v with
    | arr ws =>
      rw [h] at hw
      simp [bind, Except.bind, pure, Except.pure, mapWrappers_eq ws hw, List.filterMap_map]
    | _ => simp [bind, Except.bind, pure, Except.pure]

theorem wrappersOf_cons (e : JSVal) (es : List JSVal) :
    wrappersOf (e :: es) = entryWrappers e ++ wrappersOf es := by
  simp [wrappersOf]

theorem forEachEntry_eq (es : List JSVal) (acc : List Restaurant)
    (he : ∀ e ∈ es, e.isNullish = false) (hw : ∀ w ∈ wrappersOf es, w.isNullish = false) :
    forEachEntry es acc = .ok (acc ++ (wrappersOf es).filterMap keptDocument?) := by
  induction es generalizing acc with
  | nil => simp [forEachEntry, wrappersOf]
  | cons e es ih =>
    rw [wrappersOf_cons] at hw
    have h1 := processEntry_eq acc e (he e (List.mem_cons_self _ _))
      (fun w hx => hw w (List.mem_append_left _ hx))
    have h2 := ih (acc ++ (entryWrappers e).filterMap keptDocument?)
      (fun x hx => he x (List.mem_cons_of_mem _ hx))
      (fun w hx => hw w (List.mem_append_right _ hx))
    simp [forEachEntry, h1, h2, bind, Except.bind, wrappersOf_cons, List.filterMap_append]

theorem not_nullish_of_isObject (v : JSVal) (h : v.isObject = true) : v.isNullish = false := by
  cases v <;> simp_all [JSVal.isObject, JSVal.isNullish]

theorem buildRestaurants_eq (entries : List JSVal) (hne : entries ≠ [])
    (he : ∀ e ∈ entries, e.isNullish = false)
    (hw : ∀ w ∈ wrappersOf entries, w.isNullish = false) :
    buildRestaurants (.arr entries) = .ok ((wrappersOf entries).filterMap keptDocument?) := by
  have hlen : entries.length ≠ 0 := by
    intro h; exact hne (List.length_eq_zero.mp h)
  simp [buildRestaurants, hlen, forEachEntry_eq entries [] he hw]

theorem length_filterMap_keptDocument? (ws : List JSVal) :
    (ws.filterMap keptDocument?).length = ws.countP isKept := by
  induction ws with
  | nil => rfl
  | cons w ws ih =>
    have hs := keptDocument?_isSome w
    cases hk : keptDocument? w with
    | none =>
      rw [hk] at hs
      have : isKept w = false := by simpa using hs.symm
      simp [List.filterMap_cons, List.countP_cons, this, hk, ih]
    | some d =>
      rw [hk] at hs
      have : isKept w = true := by simpa using hs.symm
      simp [List.filterMap_cons, List.countP_cons, this, hk, ih]

theorem valueOrDefault_none (dflt : JSVal) : valueOrDefault none dflt = dflt := rfl

theorem coordinateOf_none : coordinateOf none = .zero := rfl

/-- C3.  For every kept restaurant record, each field that is absent in the
input has its documented default in the document built; and the example file
of the specification yields exactly one document, with coordinates
`[12.5, 55.7]`, cuisines `Not specified` and price range 1. -/
theorem absent_fields_get_defaults :
    (∀ (w : JSVal) (d : Restaurant), extractRestaurant w = .ok (some d) →
      ∃ rest loc, w.field? "restaurant" = some rest ∧ rest.field? "location" = some loc ∧
        (rest.field? "name" = none → d.name = .str "Unknown") ∧
        (rest.field? "cuisines" = none → d.cuisines = .str "Not specified") ∧
        (loc.field? "address" = none → d.location.address = .str "No address provided") ∧
        (loc.field? "city" = none → d.location.city = .str "Unknown") ∧
        (rest.field? "average_cost_for_two" = none →
          d.average_cost_for_two = .num (.fin 0)) ∧
        (rest.field? "price_range" = none → d.price_range = .num (.fin 1)) ∧
        ((rest.field? "user_rating").bind (fun u => u.field? "aggregate_rating") = none →
          d.user_rating.aggregate_rating = .fin 0) ∧
        ((rest.field? "user_rating").bind (fun u => u.field? "rating_text") = none →
          d.user_rating.rating_text = .str "No Rating") ∧
        ((rest.field? "user_rating").bind (fun u => u.field? "votes") = none →
          d.user_rating.votes = .fin 0) ∧
        (rest.field? "featured_image" = none → d.featured_image = .str "") ∧
        (rest.field? "menu_url" = none → d.menu_url = .str "")) ∧
    (∃ d, buildRestaurants cafeFile = .ok [d] ∧
      d.location.coordinates = [.fin (25 / 2), .fin (557 / 10)] ∧
      d.cuisines = .str "Not specified" ∧ d.price_range = .num (.fin 1)) := by
  constructor
  · intro w d h
    obtain ⟨rest, loc, hr, hl, _, hd⟩ := extractRestaurant_some_inv w d h
    refine ⟨rest, loc, hr, hl, ?_, ?_, ?_, ?_, ?_, ?_, ?_, ?_, ?_, ?_, ?_⟩ <;> intro hn <;>
      (rw [hd]; simp only [documentOf, hn, valueOrDefault_none, coordinateOf_none,
        Option.getD_none, JSNum.zero]; try rfl)
  · refine ⟨cafeDocument, rfl, ?_, rfl, rfl⟩
    simp only [cafeDocument, Rat.mkRat_eq_div]
    norm_num

/-- Witness for C3: the example wrapper, whose restaurant has only `id`, `name`
and `location`. -/
theorem absent_fields_get_defaults_witness :
    ∃ rest loc, cafeWrapper.field? "restaurant" = some rest ∧
      rest.field? "location" = some loc ∧
        (rest.field? "name" = none → cafeDocument.name = .str "Unknown") ∧
        (rest.field? "cuisines" = none → cafeDocument.cuisines = .str "Not specified") ∧
        (loc.field? "address" = none →
          cafeDocument.location.address = .str "No address provided") ∧
        (loc.field? "city" = none → cafeDocument.location.city = .str "Unknown") ∧
        (rest.field? "average_cost_for_two" = none →
          cafeDocument.average_cost_for_two = .num (.fin 0)) ∧
        (rest.field? "price_range" = none → cafeDocument.price_range = .num (.fin 1)) ∧
        ((rest.field? "user_rating").bind (fun u => u.field? "aggregate_rating") = none →
          cafeDocument.user_rating.aggregate_rating = .fin 0) ∧
        ((rest.field? "user_rating").bind (fun u => u.field? "rating_text") = none →
          cafeDocument.user_rating.rating_text = .str "No Rating") ∧
        ((rest.field? "user_rating").bind (fun u => u.field? "votes") = none →
          cafeDocument.user_rating.votes = .fin 0) ∧
        (rest.field? "featured_image" = none → cafeDocument.featured_image = .str "") ∧
        (rest.field? "menu_url" = none → cafeDocument.menu_url = .str "") :=
  absent_fields_get_defaults.1 cafeWrapper cafeDocument rfl

/-- C10.  For every kept restaurant record and each of the fields `id`, `name`,
`cuisines`, `location.address`, `location.city`, `average_cost_for_two`,
`price_range`, `user_rating.rating_text`, `featured_image` and `menu_url`, the
value in the document is the input value when that is truthy and the default
of the field when the input value is absent or falsy; so price range 0 becomes
1, id 0 becomes `null` and the empty name becomes `Unknown`. -/
theorem truthy_value_kept_else_default :
    (∀ (w : JSVal) (d : Restaurant), extractRestaurant w = .ok (some d) →
      ∃ rest loc, w.field? "restaurant" = some rest ∧ rest.field? "location" = some loc ∧
        d.id = valueOrDefault (rest.field? "id") .null ∧
        d.name = valueOrDefault (rest.field? "name") (.str "Unknown") ∧
        d.cuisines = valueOrDefault (rest.field? "cuisines") (.str "Not specified") ∧
        d.location.address =
          valueOrDefault (loc.field? "address") (.str "No address provided") ∧
        d.location.city = valueOrDefault (loc.field? "city") (.str "Unknown") ∧
        d.average_cost_for_two =
          valueOrDefault (rest.field? "average_cost_for_two") (.num (.fin 0)) ∧
        d.price_range = valueOrDefault (rest.field? "price_range") (.num (.fin 1)) ∧
        d.user_rating.rating_text =
          valueOrDefault ((rest.field? "user_rating").bind (fun u => u.field? "rating_text"))
            (.str "No Rating") ∧
        d.featured_image = valueOrDefault (rest.field? "featured_image") (.str "") ∧
        d.menu_url = valueOrDefault (rest.field? "menu_url") (.str "")) ∧
    (∀ (v dflt : JSVal), v.truthy = true → valueOrDefault (some v) dflt = v) ∧
    (∀ (v dflt : JSVal), v.truthy = false → valueOrDefault (some v) dflt = dflt) ∧
    (∀ dflt : JSVal, valueOrDefault none dflt = dflt) ∧
    (∃ d, extractRestaurant falsyFieldsWrapper = .ok (some d) ∧
      d.price_range = .num (.fin 1) ∧ d.id = .null ∧ d.name = .str "Unknown") := by
  refine ⟨?_, ?_, ?_, fun _ => rfl, ⟨_, rfl, rfl, rfl, rfl⟩⟩
  · intro w d h
    obtain ⟨rest, loc, hr, hl, _, hd⟩ := extractRestaurant_some_inv w d h
    refine ⟨rest, loc, hr, hl, ?_⟩
    rw [hd]
    exact ⟨rfl, rfl, rfl, rfl, rfl, rfl, rfl, rfl, rfl, rfl⟩
  · intro v dflt h
    simp [valueOrDefault, h]
  · intro v dflt h
    simp [valueOrDefault, h]

/-- Witness for C10: the example wrapper and its document. -/
theorem truthy_value_kept_else_default_witness :
    ∃ rest loc, cafeWrapper.field? "restaurant" = some rest ∧
      rest.field? "location" = some loc ∧
        cafeDocument.id = valueOrDefault (rest.field? "id") .null ∧
        cafeDocument.name = valueOrDefault (rest.field? "name") (.str "Unknown") ∧
        cafeDocument.cuisines =
          valueOrDefault (rest.field? "cuisines") (.str "Not specified") ∧
        cafeDocument.location.address =
          valueOrDefault (loc.field? "address") (.str "No address provided") ∧
        cafeDocument.location.city = valueOrDefault (loc.field? "city") (.str "Unknown") ∧
        cafeDocument.average_cost_for_two =
          valueOrDefault (rest.field? "average_cost_for_two") (.num (.fin 0)) ∧
        cafeDocument.price_range =
          valueOrDefault (rest.field? "price_range") (.num (.fin 1)) ∧
        cafeDocument.user_rating.rating_text =
          valueOrDefault ((rest.field? "user_rating").bind (fun u => u.field? "rating_text"))
            (.str "No Rating") ∧
        cafeDocument.featured_image =
          valueOrDefault (rest.field? "featured_image") (.str "") ∧
        cafeDocument.menu_url = valueOrDefault (rest.field? "menu_url") (.str "") :=
  truthy_value_kept_else_default.1 cafeWrapper cafeDocument rfl

/-! ## The run of the importer -/

/-- What `importData` does on each kind of input: a root that is not a
non-empty array, or a file from which no document is built, ends the run with
exit code 1, the matching error and no insert; a non-empty array of entry
objects without `null` wrappers and with at least one kept wrapper is never
rejected, its whole list of documents goes to one bulk insert, and the exit
code is 0 when the store accepts it. -/
theorem importData_outcomes
    (insertMany : List Restaurant → Except JSError Unit) :
    (∀ data : JSVal, (∀ entries, data = .arr entries → entries = []) →
      importData insertMany (.ok data) =
        { exitCode := 1, inserts := [], error := some (.error invalidStructureMessage) }) ∧
    (∀ data : JSVal, buildRestaurants data = .ok [] →
      importData insertMany (.ok data) =
        { exitCode := 1, inserts := [], error := some (.error noValidRestaurantsMessage) }) ∧
    (∀ (data : JSVal) (e : JSError), buildRestaurants data = .error e →
      importData insertMany (.ok data) = { exitCode := 1, inserts := [], error := some e }) ∧
    (∀ entries : List JSVal, entries ≠ [] → (∀ e ∈ entries, e.isObject = true) →
      (∀ w ∈ wrappersOf entries, w.isNullish = false) →
      0 < (wrappersOf entries).countP isKept →
      ∃ docs, buildRestaurants (.arr entries) = .ok docs ∧
        docs.length = (wrappersOf entries).countP isKept ∧
        (importData insertMany (.ok (.arr entries))).inserts = [docs] ∧
        (insertMany docs = .ok () →
          importData insertMany (.ok (.arr entries)) =
            { exitCode := 0, inserts := [docs], error := none })) := by
  refine ⟨?_, ?_, ?_, ?_⟩
  · intro data h
    cases data with
    | arr entries =>
      have := h entries rfl
      subst this
      rfl
    | _ => rfl
  · intro data h
    simp [importData, h]
  · intro data e h
    simp [importData, h]
  · intro entries hne hobj hw hpos
    have hb := buildRestaurants_eq entries hne
      (fun e h => not_nullish_of_isObject e (hobj e h)) hw
    have hlen := length_filterMap_keptDocument? (wrappersOf entries)
    have hl : ((wrappersOf entries).filterMap keptDocument?).length ≠ 0 := by omega
    refine ⟨_, hb, hlen, ?_, ?_⟩
    · simp only [importData, hb, hl, if_false]
      cases insertMany ((wrappersOf entries).filterMap keptDocument?) <;> rfl
    · intro hi
      simp only [importData, hb, hl, if_false, hi]

/-- C4, at the failing input.  The root is a non-empty array of entry objects
and its second wrapper is a valid restaurant, yet the `null` wrapper before it
makes the transform throw: the run ends with exit code 1 and no insert. -/
theorem importData_null_wrapper_fatal
    (insertMany : List Restaurant → Except JSError Unit) :
    nullWrapperFile = .arr nullWrapperEntries ∧
    (∀ e ∈ nullWrapperEntries, e.isObject = true) ∧
    wrappersOf nullWrapperEntries = [.null, cafeWrapper] ∧
    extractRestaurant cafeWrapper = .ok (some cafeDocument) ∧
    buildRestaurants nullWrapperFile = .error (.typeError "restaurant") ∧
    importData insertMany (.ok nullWrapperFile) =
      { exitCode := 1, inserts := [], error := some (.typeError "restaurant") } :=
  ⟨rfl, by decide, rfl, rfl, rfl, rfl⟩

/-! ## `GET /api/restaurantss/:id` -/

theorem isStr_iff (v : JSVal) (s : String) : v.isStr s = true ↔ v = .str s := by
  cases v <;> simp [JSVal.isStr]

/-- C9.  With the store lookup of the specification, `GET /api/restaurantss/:id`
answers 200 with a stored document whose `id` is the identifier, as a string,
when there is one; it answers 404 with the message `Restaurant Not Found`
exactly when no stored document has that `id`; and whenever the store lookup
fails it answers 500 with the message of the error attached. -/
theorem getRestaurantById_found_or_not_found (docs : List Restaurant) (id : String) :
    (∀ d ∈ docs, d.id = .str id →
      ∃ d', getRestaurantById (Collection.findOne docs) id =
          { status := 200, body := .document d' } ∧ d' ∈ docs ∧ d'.id = .str id) ∧
    (getRestaurantById (Collection.findOne docs) id =
        { status := 404, body := .message "Restaurant Not Found" } ↔
      ∀ d ∈ docs, d.id ≠ .str id) ∧
    (∀ (findOne : String → Except StoreError (Option Restaurant)) (e : StoreError),
      findOne id = .error e →
      getRestaurantById findOne id =
        { status := 500, body := .errorMessage "Server Error" e.message }) := by
  refine ⟨?_, ?_, ?_⟩
  · intro d hd hid
    cases hf : docs.find? (fun d => d.id.isStr id) with
    | none =>
      have := List.find?_eq_none.mp hf d hd
      simp [(isStr_iff d.id id).mpr hid] at this
    | some d' =>
      refine ⟨d', ?_, List.mem_of_find?_eq_some hf, ?_⟩
      · simp [getRestaurantById, Collection.findOne, hf]
      · have hs := List.find?_some hf
        exact (isStr_iff d'.id id).mp hs
  · cases hf : docs.find? (fun d => d.id.isStr id) with
    | none =>
      have hnone := List.find?_eq_none.mp hf
      constructor
      · intro _ d hd hid
        have := hnone d hd
        simp [(isStr_iff d.id id).mpr hid] at this
      · intro _
        simp [getRestaurantById, Collection.findOne, hf]
    | some d' =>
      constructor
      · intro h
        simp [getRestaurantById, Collection.findOne, hf] at h
      · intro h
        have hs := List.find?_some hf
        exact absurd ((isStr_iff d'.id id).mp hs) (h d' (List.mem_of_find?_eq_some hf))
  · intro findOne e h
    simp [getRestaurantById, h]

/-- Witness for C9: a store holding the example document, asked for id `1`. -/
theorem getRestaurantById_found_or_not_found_witness :
    ∃ d', getRestaurantById (Collection.findOne [cafeDocument]) "1" =
        { status := 200, body := .document d' } ∧ d' ∈ [cafeDocument] ∧ d'.id = .str "1" :=
  (getRestaurantById_found_or_not_found [cafeDocument] "1").1 cafeDocument
    (List.mem_singleton.mpr rfl) rfl

/-! ## `GET /api/restaurants` -/

theorem listRestaurants_of_ok {D : Type} (find : Int → Int → Except StoreError (List D))
    (countDocuments : Except StoreError Nat) (page limit : Option String)
    (restaurants : List D) (total : Nat)
    (hf : find ((effectivePage page - 1) * effectiveLimit limit) (effectiveLimit limit) =
      .ok restaurants)
    (hc : countDocuments = .ok total) :
    listRestaurants find countDocuments page limit =
      { status := 200
        body := .page total (effectivePage page)
          ⌈(total : ℚ) / (effectiveLimit limit : ℚ)⌉ restaurants } := by
  simp [listRestaurants, hf, hc]

/-- C5.  Whenever the store answers the page query with `restaurants` and the
count with `total`, `GET /api/restaurants` answers 200 with `totalRestaurants`
equal to `total`, `currentPage` equal to the effective page and `totalPages`
equal to the ceiling of `total / limit` for the effective limit, which for a
positive limit is the least number of pages that hold `total` documents; and
for an empty collection, where the store answers the page query with no
document and the count with 0, the response is a success with `totalPages` 0
and an empty list. -/
theorem listRestaurants_page_counts :
    (∀ (find : Int → Int → Except StoreError (List Restaurant))
        (countDocuments : Except StoreError Nat) (page limit : Option String)
        (restaurants : List Restaurant) (total : Nat),
      find ((effectivePage page - 1) * effectiveLimit limit) (effectiveLimit limit) =
        .ok restaurants →
      countDocuments = .ok total →
      listRestaurants find countDocuments page limit =
        { status := 200
          body := .page total (effectivePage page)
            ⌈(total : ℚ) / (effectiveLimit limit : ℚ)⌉ restaurants }) ∧
    (∀ (total : Nat) (limit : Int), 0 < limit →
      (total : Int) ≤ ⌈(total : ℚ) / (limit : ℚ)⌉ * limit ∧
      (⌈(total : ℚ) / (limit : ℚ)⌉ - 1) * limit < total) ∧
    (∀ (find : Int → Int → Except StoreError (List Restaurant))
        (countDocuments : Except StoreError Nat) (page limit : Option String),
      find ((effectivePage page - 1) * effectiveLimit limit) (effectiveLimit limit) =
        .ok [] →
      countDocuments = .ok 0 →
      listRestaurants find countDocuments page limit =
        { status := 200, body := .page 0 (effectivePage page) 0 [] }) := by
  refine ⟨?_, ?_, ?_⟩
  · intro find countDocuments page limit restaurants total hf hc
    exact listRestaurants_of_ok find countDocuments page limit restaurants total hf hc
  · intro total limit hl
    have hlq : (0 : ℚ) < (limit : ℚ) := by exact_mod_cast hl
    constructor
    · have h1 : (total : ℚ) / (limit : ℚ) ≤ (⌈(total : ℚ) / (limit : ℚ)⌉ : ℚ) := Int.le_ceil _
      have h2 : (total : ℚ) ≤ (⌈(total : ℚ) / (limit : ℚ)⌉ : ℚ) * (limit : ℚ) :=
        (div_le_iff₀ hlq).mp h1
      exact_mod_cast h2
    · have h1 : (⌈(total : ℚ) / (limit : ℚ)⌉ : ℚ) < (total : ℚ) / (limit : ℚ) + 1 :=
        Int.ceil_lt_add_one _
      have h2 : (⌈(total : ℚ) / (limit : ℚ)⌉ : ℚ) - 1 < (total : ℚ) / (limit : ℚ) := by linarith
      have h3 : ((⌈(total : ℚ) / (limit : ℚ)⌉ : ℚ) - 1) * (limit : ℚ) < (total : ℚ) :=
        (lt_div_iff₀ hlq).mp h2
      exact_mod_cast h3
  · intro find countDocuments page limit hf hc
    have h := listRestaurants_of_ok find countDocuments page limit [] 0 hf hc
    simpa using h

/-- Witness for C5: a store that counts 7 documents, asked for page 2 with limit
3, and the empty collection of the specification, asked with the defaults. -/
theorem listRestaurants_page_counts_witness :
    listRestaurants (fun _ _ => .ok [cafeDocument]) (.ok 7) (some "2") (some "3") =
      { status := 200
        body := .page 7 (effectivePage (some "2"))
          ⌈((7 : Nat) : ℚ) / (effectiveLimit (some "3") : ℚ)⌉ [cafeDocument] } ∧
    listRestaurants (Collection.find (fun _ _ => .ok []) []) (Collection.countDocuments [])
        none none =
      { status := 200, body := .page 0 (effectivePage none) 0 [] } :=
  ⟨listRestaurants_page_counts.1 (fun _ _ => .ok [cafeDocument]) (.ok 7) (some "2") (some "3")
      [cafeDocument] 7 rfl rfl,
   listRestaurants_page_counts.2.2 (Collection.find (fun _ _ => .ok []) [])
      (Collection.countDocuments []) none none rfl rfl⟩

theorem paramTruthy_eq_false (x : Option String) :
    paramTruthy x = false ↔ x = none ∨ x = some "" := by
  cases x with
  | none => simp [paramTruthy]
  | some s => simp [paramTruthy]

/-- Counterexample to C8 as stated: `latitude`, `longitude` and `distance` are
all present in the request, `latitude` with an empty value, and the response is
the 400 with no query issued to the store. -/
theorem nearby_empty_latitude_rejected :
    nearby (fun _ => .ok [cafeDocument]) (some "") (some "77.2") (some "5") =
      ({ status := 400, body := .message "Latitude, longitude, and distance are required!" },
        []) :=
  rfl

/-- C8 (as amended).  When any of `latitude`, `longitude` or `distance` is
missing or empty, `GET /api/nearby` answers 400 with the fixed message and
issues no query to the store; when all three are present and not empty it
issues exactly one proximity query, centred at `[longitude, latitude]` as read
by `parseFloat`, with maximum distance the parsed `distance` times 1000, and
answers with what the store returns. -/
theorem nearby_requires_all_parameters
    (find : NearQuery → Except StoreError (List Restaurant)) :
    (∀ latitude longitude distance : Option String,
      (latitude = none ∨ latitude = some "") ∨ (longitude = none ∨ longitude = some "") ∨
        (distance = none ∨ distance = some "") →
      nearby find latitude longitude distance =
        ({ status := 400
           body := .message "Latitude, longitude, and distance are required!" }, [])) ∧
    (∀ la lo di : String, la ≠ "" → lo ≠ "" → di ≠ "" →
      (nearby find (some la) (some lo) (some di)).2 =
        [{ coordinates := [parseFloatStr lo, parseFloatStr la]
           maxDistance := (parseFloatStr di).mul (.fin 1000) }] ∧
      (∀ restaurants,
        find { coordinates := [parseFloatStr lo, parseFloatStr la]
               maxDistance := (parseFloatStr di).mul (.fin 1000) } = .ok restaurants →
        (nearby find (some la) (some lo) (some di)).1 =
          { status := 200, body := .matches restaurants.length restaurants }) ∧
      (∀ e,
        find { coordinates := [parseFloatStr lo, parseFloatStr la]
               maxDistance := (parseFloatStr di).mul (.fin 1000) } = .error e →
        (nearby find (some la) (some lo) (some di)).1 =
          { status := 500, body := .errorObject "Server Error" e })) := by
  constructor
  · intro latitude longitude distance h
    have h' : paramTruthy latitude = false ∨ paramTruthy longitude = false ∨
        paramTruthy distance = false := by
      rcases h with h | h | h
      · exact Or.inl ((paramTruthy_eq_false _).mpr h)
      · exact Or.inr (Or.inl ((paramTruthy_eq_false _).mpr h))
      · exact Or.inr (Or.inr ((paramTruthy_eq_false _).mpr h))
    unfold nearby
    rcases h' with h' | h' | h' <;> simp [h', nearbyRequiredMessage]
  · intro la lo di hla hlo hdi
    have h1 : paramTruthy (some la) = true := by simp [paramTruthy, hla]
    have h2 : paramTruthy (some lo) = true := by simp [paramTruthy, hlo]
    have h3 : paramTruthy (some di) = true := by simp [paramTruthy, hdi]
    refine ⟨?_, ?_, ?_⟩
    · simp only [nearby, h1, h2, h3, parseFloatParam]
      cases find { coordinates := [parseFloatStr lo, parseFloatStr la]
                   maxDistance := (parseFloatStr di).mul (.fin 1000) } <;> simp
    · intro restaurants hf
      simp [nearby, h1, h2, h3, parseFloatParam, hf]
    · intro e hf
      simp [nearby, h1, h2, h3, parseFloatParam, hf]

/-- Witness for C8 (as amended): a request without `distance`, and the request
`latitude=28.6&longitude=77.2&distance=5`. -/
theorem nearby_requires_all_parameters_witness :
    nearby (fun _ => .ok [cafeDocument]) (some "28.6") (some "77.2") none =
        ({ status := 400
           body := .message "Latitude, longitude, and distance are required!" }, []) ∧
    (nearby (fun _ => .ok [cafeDocument]) (some "28.6") (some "77.2") (some "5")).2 =
        [{ coordinates := [parseFloatStr "77.2", parseFloatStr "28.6"]
           maxDistance := (parseFloatStr "5").mul (.fin 1000) }] :=
  ⟨(nearby_requires_all_parameters (fun _ => .ok [cafeDocument])).1 (some "28.6") (some "77.2")
      none (Or.inr (Or.inr (Or.inl rfl))),
   ((nearby_requires_all_parameters (fun _ => .ok [cafeDocument])).2 "28.6" "77.2" "5"
      (by decide) (by decide) (by decide)).1⟩

end Zomato
